import Mathlib

/-!
Shallow embedding of the upload–ingest–analyze pipeline of
`src/app.py` (Nutritionist-LLM).

The staging directory is modelled as `Option (List (String × Bytes))`:
`none` means the directory does not exist, `some es` is the association
list of files it holds (filename, byte content). Filesystem faults that
the Python code catches (a failing `os.unlink` inside `clear_directory`,
a failing `pathlib.Path.read_bytes` inside `read_file`) are modelled by
boolean oracles (`delFails`, `readFails`) saying which operation raises.
The Google GenAI call inside `generate_response` is modelled by a
`GenOutcome` oracle: either the service returns text or it raises.
-/

namespace NutritionistApp

/-- Raw file content, as a list of byte values. -/
abbrev Bytes := List Nat

/-- One file in the staging directory: filename and byte content. -/
abbrev Entry := String × Bytes

/-- The staging directory: `none` if the directory does not exist,
otherwise the list of files it holds. -/
abbrev DirState := Option (List Entry)

/-- Constant `MODEL_ID` from `src/app.py`. -/
def MODEL_ID : String := "gemini-2.0-flash"

/-- Constant `CAPTURE_FOLDER` from `src/app.py`. -/
def CAPTURE_FOLDER : String := "files"

/-- Constant `IMAGE_MIME_TYPES` from `src/app.py` (declared in the source
but never used by any other function of the file). -/
def IMAGE_MIME_TYPES : List String :=
  ["image/jpeg", "image/png", "image/webp", "image/heic", "image/heif"]

/-- Constant `NUTRITIONIST_PROMPT` from `src/app.py`: the fixed
instruction text sent as the first element of every analysis request. -/
def NUTRITIONIST_PROMPT : String :=
  "\nAnalyze all the images of meals/foods and provide a comprehensive nutritional analysis.\n\nTask Requirements:\n\n1. Food Item Identification: Identify and list the individual food items present in all images.\n2. Nutritional Breakdown: For each food item, provide the following nutritional information:\n    - Calories\n    - Fat (total, saturated, and unsaturated)\n    - Energy\n    - Carbohydrates (%)\n    - Protein (%)\n    - Other key ingredients (e.g., fiber, sugar, sodium) (%)\n3. Total Calories and Macronutrient Analysis: Calculate and report the total calories and macronutrient breakdown (carbohydrates, protein, fat) for the entire meal.\n4. Health Rating: Assign a health rating on a scale of 1-10, considering factors such as nutrient balance, calorie density, and presence of essential vitamins and minerals. Provide a justification for the assigned health rating.\n5. Recommendations for Improvement: Suggest specific replacements or additions to the meal to improve its nutritional quality and health rating. Estimate the revised health rating if these recommendations are implemented.\n\nOutput Requirements:\n\n- A comprehensive report including:\n    - Food item identification and listing\n    - Nutritional breakdown for each food item\n    - Total calories and macronutrient analysis\n    - Health rating and justification\n    - Recommendations for improvement and revised health rating\n\nEvaluation Metrics:\n\n- Accuracy of food item identification\n- Precision of nutritional breakdown and calculations\n- Relevance and effectiveness of recommendations for improvement\n- Clarity and coherence of the report\n\nPlease provide your analysis and report in a clear and concise format. \nTake all images into consideration, do not skip any images. Do not provide 1 report for each image.\nCombine all images into 1 report. Please be clear and concise in your analysis.\n"

/-- Lowercase one ASCII character (model of Python case-insensitive
extension handling). -/
def lowerChar (c : Char) : Char :=
  if 65 ≤ c.toNat ∧ c.toNat ≤ 90 then Char.ofNat (c.toNat + 32) else c

/-- Lowercase a string character by character. -/
def lowerStr (s : String) : String := String.mk (s.data.map lowerChar)

/-- Helper for `extensionOf`: walks the characters of a path, keeping
the run of characters seen since the most recent dot (`none` while no
dot has been seen). -/
def extAux : List Char → Option (List Char) → Option (List Char)
  | [], acc => acc
  | c :: cs, acc =>
    if c = '.' then extAux cs (some [])
    else extAux cs (acc.map (fun a => a ++ [c]))

/-- The filename extension of a path: the characters after the last dot,
or `none` when the path contains no dot. -/
def extensionOf (path : String) : Option String :=
  (extAux path.data none).map (fun cs => String.mk cs)

/-- Model of the extension table that Python `mimetypes.guess_type`
consults: maps a lowercased extension to a MIME type, `none` for an
extension the table does not know. -/
def mimeFromTable : String → Option String
  | "jpg" => some "image/jpeg"
  | "jpeg" => some "image/jpeg"
  | "png" => some "image/png"
  | "webp" => some "image/webp"
  | "heic" => some "image/heic"
  | "heif" => some "image/heif"
  | "gif" => some "image/gif"
  | "bmp" => some "image/bmp"
  | "txt" => some "text/plain"
  | "pdf" => some "application/pdf"
  | _ => none

/-- Function `detect_mime_type` from `src/app.py`: classifies a file by
its path alone via `mimetypes.guess_type`, which inspects only the
(lowercased) filename extension and returns `None` for an unknown one. -/
def detect_mime_type (file_path : String) : Option String :=
  (extensionOf file_path).bind (fun e => mimeFromTable (lowerStr e))

/-- Model of `os.path.join(folder, name)` for the paths this app uses. -/
def joinPath (folder name : String) : String := folder ++ "/" ++ name

/-- A `google.genai.types.Part` built by `types.Part.from_bytes`: raw
bytes plus the MIME type label (which may be absent, since
`detect_mime_type` can return `None` and the value is passed through). -/
structure Part where
  data : Bytes
  mime_type : Option String
deriving DecidableEq, Repr

/-- Look a filename up in the staging directory's entry list. -/
def lookupEntry (es : List Entry) (n : String) : Option Bytes :=
  (es.find? (fun e => e.1 == n)).map (fun e => e.2)

/-- Function `read_file` from `src/app.py`: reads the full byte content
of the staged file at `name` and wraps it, together with the MIME type
detected from the path `CAPTURE_FOLDER/name`, into a `Part`. Any
exception while reading (an I/O fault, modelled by `readFails`, or a
missing file or directory) is caught, logged, and turned into `None`. -/
def read_file (d : DirState) (readFails : String → Bool) (name : String) : Option Part :=
  if readFails name then none
  else
    match d with
    | none => none
    | some es =>
      match lookupEntry es name with
      | some b => some { data := b, mime_type := detect_mime_type (joinPath CAPTURE_FOLDER name) }
      | none => none

/-- Function `clear_directory` from `src/app.py`: if the directory
exists, iterate over its entries, deleting each one inside a
`try/except` that logs a failed deletion and moves on. `delFails` says
which individual deletions raise. Returns the directory state afterward
(entries whose deletion failed remain) and the list of filenames whose
deletion failure was logged, in iteration order. -/
def clear_directory (d : DirState) (delFails : String → Bool) : DirState × List String :=
  match d with
  | none => (none, [])
  | some es =>
    let r := es.foldl
      (fun acc e =>
        if delFails e.1 then (acc.1 ++ [e], acc.2 ++ [e.1]) else (acc.1, acc.2))
      ([], [])
    (some r.1, r.2)

/-- Function `create_directory` from `src/app.py`: `os.makedirs` when
the directory does not exist, otherwise a no-op. -/
def create_directory (d : DirState) : DirState :=
  match d with
  | none => some []
  | some es => some es

/-- The fault-free deletion oracle: no individual deletion raises. -/
def noDeleteFailure : String → Bool := fun _ => false

/-- The script-top sequence of `src/app.py` (lines 179–182):
`clear_directory(CAPTURE_FOLDER)` then `create_directory(CAPTURE_FOLDER)`,
run before each new upload batch is staged. -/
def reset (d : DirState) (delFails : String → Bool) : DirState :=
  create_directory (clear_directory d delFails).1

/-- One iteration of the upload staging loop:
`open(os.path.join(CAPTURE_FOLDER, file.name), "wb").write(...)` —
overwrites a same-named entry in place, otherwise appends. -/
def writeFile (es : List Entry) (n : String) (b : Bytes) : List Entry :=
  if es.any (fun e => e.1 == n) then
    es.map (fun e => if e.1 == n then (n, b) else e)
  else es ++ [(n, b)]

/-- The upload staging block of `src/app.py` (lines 186–194): writes
every (filename, bytes) pair of the batch into the staging directory in
batch order. Opening a file inside a missing directory raises, so a
missing directory stays `none`. -/
def stage (d : DirState) (batch : List Entry) : DirState :=
  match d with
  | none => none
  | some es => some (batch.foldl (fun acc fb => writeFile acc fb.1 fb.2) es)

/-- One element of the Python `contents` list handed to
`client.models.generate_content`: the instruction string, a loaded
`Part`, or the `None` placeholder a failed `read_file` leaves behind. -/
inductive ContentItem where
  | text (s : String)
  | media (p : Part)
  | failed
deriving DecidableEq, Repr

/-- Coerce a `read_file` result into the `contents` element it
contributes (a failed read contributes Python `None`). -/
def itemOfPart : Option Part → ContentItem
  | some p => ContentItem.media p
  | none => ContentItem.failed

/-- One outbound call to `client.models.generate_content`: the model id
and the ordered contents list. -/
structure GatewayCall where
  model : String
  contents : List ContentItem
deriving DecidableEq, Repr

/-- Line 211 of `src/app.py`: the list comprehension
`[read_file(os.path.join(CAPTURE_FOLDER, file.name)) for file in file_uploader]`. -/
def analyzeContents (d : DirState) (readFails : String → Bool) (names : List String) :
    List (Option Part) :=
  names.map (read_file d readFails)

/-- Line 213 of `src/app.py`: the single gateway call the Analyze
handler issues, with contents `[NUTRITIONIST_PROMPT] + contents`. -/
def analyzeCall (d : DirState) (readFails : String → Bool) (names : List String) :
    GatewayCall :=
  { model := MODEL_ID,
    contents :=
      ContentItem.text NUTRITIONIST_PROMPT :: (analyzeContents d readFails names).map itemOfPart }

/-- The full list of gateway calls one press of the Analyze button
issues: exactly the one call of line 213, whatever the batch is. -/
def analyzeCalls (d : DirState) (readFails : String → Bool) (names : List String) :
    List GatewayCall :=
  [analyzeCall d readFails names]

/-- Outcome of the external `client.models.generate_content` call:
either the service returns a response or the call raises. -/
inductive GenOutcome where
  | ok (resp : String)
  | raised (msg : String)

/-- The user-visible and logged messages the Streamlit layer holds. -/
structure UIState where
  errorMessages : List String
  logMessages : List String
deriving DecidableEq, Repr

/-- Function `generate_response` from `src/app.py`: wraps the service
call in `try/except`; on success returns the response, and on any
exception logs the error, shows `st.error(...)`, and returns `None`. -/
def generate_response (outcome : GenOutcome) (ui : UIState) : Option String × UIState :=
  match outcome with
  | GenOutcome.ok r => (some r, ui)
  | GenOutcome.raised e =>
    (none,
     { ui with
        logMessages := ui.logMessages ++ ["Error generating response: " ++ e],
        errorMessages := ui.errorMessages ++ ["Failed to generate response. Please try again."] })

/-- The `type=["jpg", "png", "jpeg"]` argument of `st.file_uploader` on
line 185 of `src/app.py`. -/
def uploaderAllowedTypes : List String := ["jpg", "png", "jpeg"]

/-- Whether the Streamlit file uploader of line 185 accepts a file:
its extension, compared case-insensitively, must be in
`uploaderAllowedTypes`; a file of any other type never reaches the
staging loop. -/
def uploaderAccepts (name : String) : Bool :=
  match extensionOf name with
  | some e => uploaderAllowedTypes.contains (lowerStr e)
  | none => false

/-- The upload file types the spec claims are accepted, as extensions,
from the spec's words: "common photographic image formats (JPEG, PNG,
WEBP, HEIC/HEIF)". Kept separate from `uploaderAllowedTypes` so the two
can be compared. -/
def specClaimedUploadExts : List String := ["jpg", "jpeg", "png", "webp", "heic", "heif"]

/-! ### Helper lemmas -/

/-- Unrolling the `clear_directory` loop: the surviving entries are exactly
those whose deletion failed, and the log lists their names in order. -/
theorem clear_foldl_spec (df : String → Bool) (es : List Entry) :
    ∀ a l, es.foldl
        (fun acc e => if df e.1 then (acc.1 ++ [e], acc.2 ++ [e.1]) else (acc.1, acc.2))
        (a, l)
      = (a ++ es.filter (fun e => df e.1),
         l ++ (es.filter (fun e => df e.1)).map Prod.fst) := by
  induction es with
  | nil => intro a l; simp
  | cons e t ih =>
    intro a l
    cases hdf : df e.1 with
    | false => simp [List.foldl_cons, hdf, ih]
    | true => simp [List.foldl_cons, hdf, ih]

/-- Closed form of `clear_directory` on an existing directory. -/
theorem clear_directory_spec (es : List Entry) (df : String → Bool) :
    clear_directory (some es) df
      = (some (es.filter (fun e => df e.1)),
         (es.filter (fun e => df e.1)).map Prod.fst) := by
  simp [clear_directory, clear_foldl_spec df es [] []]

/-- With no deletion failures, `reset` always yields an existing, empty
directory, whether or not the directory existed before. -/
theorem reset_noFail (d : DirState) : reset d noDeleteFailure = some [] := by
  cases d with
  | none => rfl
  | some es =>
    simp [reset, clear_directory_spec, noDeleteFailure, create_directory]

/-- Writing a filename not yet present appends the entry. -/
theorem writeFile_fresh (es : List Entry) (n : String) (b : Bytes)
    (h : ∀ e ∈ es, e.1 ≠ n) : writeFile es n b = es ++ [(n, b)] := by
  have hany : es.any (fun e => e.1 == n) = false := by
    simp only [List.any_eq_false]
    intro e he
    simp [beq_iff_eq, h e he]
  simp [writeFile, hany]

/-- Folding the staging loop over a batch of pairwise-fresh filenames
appends the batch to the accumulator unchanged. -/
theorem stage_foldl_fresh (batch : List Entry) :
    ∀ acc : List Entry, (∀ fb ∈ batch, ∀ e ∈ acc, e.1 ≠ fb.1) →
    (batch.map Prod.fst).Nodup →
    batch.foldl (fun a fb => writeFile a fb.1 fb.2) acc = acc ++ batch := by
  induction batch with
  | nil => intro acc _ _; simp
  | cons fb t ih =>
    intro acc hfresh hnodup
    have h1 : ∀ e ∈ acc, e.1 ≠ fb.1 := hfresh fb (by simp)
    have hw : writeFile acc fb.1 fb.2 = acc ++ [(fb.1, fb.2)] :=
      writeFile_fresh acc fb.1 fb.2 h1
    have hnotmem : fb.1 ∉ t.map Prod.fst := by
      simp only [List.map_cons, List.nodup_cons] at hnodup
      exact hnodup.1
    have hnodup2 : (t.map Prod.fst).Nodup := by
      simp only [List.map_cons, List.nodup_cons] at hnodup
      exact hnodup.2
    have hfresh2 : ∀ gb ∈ t, ∀ e ∈ acc ++ [(fb.1, fb.2)], e.1 ≠ gb.1 := by
      intro gb hgb e he
      rcases List.mem_append.mp he with hmem | hmem
      · exact hfresh gb (List.mem_cons_of_mem _ hgb) e hmem
      · have he2 : e = (fb.1, fb.2) := by simpa using hmem
        subst he2
        intro hcontra
        apply hnotmem
        rw [hcontra]
        exact List.mem_map_of_mem Prod.fst hgb
    calc (fb :: t).foldl (fun a g => writeFile a g.1 g.2) acc
        = t.foldl (fun a g => writeFile a g.1 g.2) (writeFile acc fb.1 fb.2) := rfl
      _ = t.foldl (fun a g => writeFile a g.1 g.2) (acc ++ [(fb.1, fb.2)]) := by rw [hw]
      _ = (acc ++ [(fb.1, fb.2)]) ++ t := ih _ hfresh2 hnodup2
      _ = acc ++ (fb :: t) := by simp

/-- Staging a batch with pairwise-distinct names into an empty directory
leaves exactly the batch. -/
theorem stage_empty_exact (batch : List Entry) (h : (batch.map Prod.fst).Nodup) :
    stage (some []) batch = some batch := by
  have hfold := stage_foldl_fresh batch []
    (fun fb _ e he => absurd he (List.not_mem_nil e)) h
  simpa [stage] using hfold

/-! ### Claim theorems -/

/-- Claim C1: for every non-empty upload batch, the Analyze handler invokes
the inference gateway exactly once, with an ordered list whose first element
is the fixed instruction text and whose element i+1 is the loaded media part
of the i-th uploaded file, so the list has N+1 elements for a batch of
size N. -/
theorem analyze_request_shape (d : DirState) (rf : String → Bool)
    (names : List String) (h : names ≠ []) :
    analyzeCalls d rf names = [analyzeCall d rf names] ∧
    (analyzeCall d rf names).contents.length = names.length + 1 ∧
    (analyzeCall d rf names).contents.headD ContentItem.failed
      = ContentItem.text NUTRITIONIST_PROMPT ∧
    ∀ i : Nat, (analyzeCall d rf names).contents[i + 1]?
      = (names[i]?).map (fun nm => itemOfPart (read_file d rf nm)) := by
  refine ⟨rfl, ?_, rfl, ?_⟩
  · simp [analyzeCall, analyzeContents]
  · intro i
    simp only [analyzeCall, analyzeContents, List.getElem?_cons_succ,
      List.getElem?_map, Option.map_map]
    rfl

/-- Witness for C1 at the one-file batch ["a.jpg"]. -/
theorem analyze_request_shape_witness :
    (analyzeCall (some [("a.jpg", [1])]) (fun _ => false) ["a.jpg"]).contents.length
      = (["a.jpg"] : List String).length + 1 :=
  (analyze_request_shape (some [("a.jpg", [1])]) (fun _ => false) ["a.jpg"]
    (by decide)).2.1

/-- Counterexample to claim C2: with an empty upload batch, pressing Analyze
still issues a gateway call — the code has no empty-batch rejection, so the
gateway is invoked with the one-element list holding only the instruction. -/
theorem empty_batch_calls_gateway_anyway :
    analyzeCalls (some []) (fun _ => false) []
      = [{ model := MODEL_ID, contents := [ContentItem.text NUTRITIONIST_PROMPT] }] := rfl

/-- Claim C2 (amended): for an empty upload batch, the Analyze handler
invokes the gateway exactly once, with contents equal to the singleton list
holding only the instruction; no rejection or "no images to analyze" report
happens before the call. -/
theorem empty_batch_gateway_call_shape (d : DirState) (rf : String → Bool) :
    analyzeCalls d rf []
      = [{ model := MODEL_ID, contents := [ContentItem.text NUTRITIONIST_PROMPT] }] := rfl

/-- Claim C3: resetting the staging directory and then staging a batch with
pairwise-distinct filenames leaves the directory holding exactly that batch;
in particular, after two successive upload cycles only the second batch's
files remain. -/
theorem reset_then_stage_exact (d : DirState) (b1 b2 : List Entry)
    (h : (b2.map Prod.fst).Nodup) :
    stage (reset d noDeleteFailure) b2 = some b2 ∧
    stage (reset (stage (reset d noDeleteFailure) b1) noDeleteFailure) b2 = some b2 := by
  constructor
  · rw [reset_noFail]
    exact stage_empty_exact b2 h
  · rw [reset_noFail]
    exact stage_empty_exact b2 h

/-- Witness for C3: staging batch2 after resetting (also after a first
upload cycle of batch1) leaves exactly batch2. -/
theorem reset_then_stage_exact_witness :
    stage (reset none noDeleteFailure) [("a.jpg", [1]), ("b.png", [2])]
      = some [("a.jpg", [1]), ("b.png", [2])] ∧
    stage (reset (stage (reset none noDeleteFailure) [("x.png", [0])]) noDeleteFailure)
        [("a.jpg", [1]), ("b.png", [2])]
      = some [("a.jpg", [1]), ("b.png", [2])] :=
  reset_then_stage_exact none [("x.png", [0])] [("a.jpg", [1]), ("b.png", [2])]
    (by decide)

/-- Claim C4: every exception raised by the external generation call is
caught inside generate_response: the caller receives None rather than the
exception, the error is logged, and a user-facing error message is
emitted. -/
theorem generate_response_never_propagates (e : String) (ui : UIState) :
    (generate_response (GenOutcome.raised e) ui).1 = none ∧
    "Failed to generate response. Please try again."
      ∈ (generate_response (GenOutcome.raised e) ui).2.errorMessages ∧
    ("Error generating response: " ++ e)
      ∈ (generate_response (GenOutcome.raised e) ui).2.logMessages := by
  refine ⟨rfl, ?_, ?_⟩ <;> simp [generate_response]

/-- Counterexample to claim C5: the spec claims WEBP is among the accepted
upload types, but the uploader of line 185 rejects a .webp file. -/
theorem webp_claimed_but_rejected :
    uploaderAccepts "meal.webp" = false ∧ "webp" ∈ specClaimedUploadExts := by
  decide

/-- Claim C5 (amended): the uploader accepts exactly the files whose
case-insensitive extension is jpg, png or jpeg; a file of any other type —
including the WEBP and HEIC/HEIF formats listed in the unused
IMAGE_MIME_TYPES constant — is rejected before staging. -/
theorem uploader_accepts_only_jpg_png_jpeg (name : String) :
    uploaderAccepts name = true ↔
      ∃ e, extensionOf name = some e ∧
        (lowerStr e = "jpg" ∨ lowerStr e = "png" ∨ lowerStr e = "jpeg") := by
  unfold uploaderAccepts
  cases hx : extensionOf name with
  | none => simp
  | some e => simp [uploaderAllowedTypes, List.elem_iff]

/-- Claim C6: reset (clear_directory then create_directory) is idempotent:
run on any location, existing or not, it leaves the location existing and
empty, and running it again leaves it existing and empty again. -/
theorem reset_idempotent_both_empty (d : DirState) :
    reset d noDeleteFailure = some [] ∧
    reset (reset d noDeleteFailure) noDeleteFailure = some [] :=
  ⟨reset_noFail d, reset_noFail _⟩

/-- Claim C7: an individual deletion failure inside clear_directory is
logged and skipped: the loop still deletes every entry whose own deletion
succeeds, every failing entry's name is logged, and clear_directory returns
normally (a result, never an exception). -/
theorem clear_directory_skips_failed_deletions (es : List Entry) (df : String → Bool)
    (e : Entry) (he : e ∈ es) (hd : df e.1 = false) :
    (clear_directory (some es) df).1 = some (es.filter (fun x => df x.1)) ∧
    e ∉ es.filter (fun x => df x.1) ∧
    ∀ x ∈ es, df x.1 = true → x.1 ∈ (clear_directory (some es) df).2 := by
  refine ⟨by rw [clear_directory_spec], ?_, ?_⟩
  · intro hmem
    have hx := (List.mem_filter.mp hmem).2
    rw [hd] at hx
    simp at hx
  · intro x hx hxt
    rw [clear_directory_spec]
    exact List.mem_map_of_mem Prod.fst (List.mem_filter.mpr ⟨hx, hxt⟩)

/-- Witness for C7: with entries a.jpg, bad, c.png where only "bad" fails to
delete, the surviving contents are exactly the failing entry. -/
theorem clear_directory_skips_failed_deletions_witness :
    (clear_directory (some [("a.jpg", [1]), ("bad", [2]), ("c.png", [3])])
        (fun nm => nm == "bad")).1
      = some [("bad", [2])] :=
  (clear_directory_skips_failed_deletions
    [("a.jpg", [1]), ("bad", [2]), ("c.png", [3])] (fun nm => nm == "bad")
    ("a.jpg", [1]) (by decide) (by decide)).1

/-- Claim C8: read_file returns the staged file's full byte content paired
with the MIME type detected from the path alone; the detected type is
independent of the stored bytes, and an unknown type (none) is passed
through inside the Part rather than crashing. -/
theorem read_file_reads_bytes_types_by_name (es : List Entry) (rf : String → Bool)
    (name : String) (b : Bytes)
    (hl : lookupEntry es name = some b) (hr : rf name = false) :
    read_file (some es) rf name
      = some { data := b,
               mime_type := detect_mime_type (joinPath CAPTURE_FOLDER name) } ∧
    ∀ es2 b2, lookupEntry es2 name = some b2 →
      (read_file (some es2) rf name).map Part.mime_type
        = some (detect_mime_type (joinPath CAPTURE_FOLDER name)) := by
  constructor
  · simp [read_file, hr, hl]
  · intro es2 b2 hl2
    simp [read_file, hr, hl2]

/-- Witness for C8 at a file with unknown extension: food.xyz loads with
its bytes and a mime_type of none, which is passed through untouched. -/
theorem read_file_reads_bytes_types_by_name_witness :
    read_file (some [("food.xyz", [7])]) (fun _ => false) "food.xyz"
      = some { data := [7],
               mime_type := detect_mime_type (joinPath CAPTURE_FOLDER "food.xyz") } ∧
    detect_mime_type (joinPath CAPTURE_FOLDER "food.xyz") = none :=
  ⟨(read_file_reads_bytes_types_by_name [("food.xyz", [7])] (fun _ => false)
      "food.xyz" [7] (by decide) rfl).1,
   by decide⟩

/-- Claim C9: the contents list handed to generate_response always has
exactly one slot per uploaded file plus the instruction; a failed load
leaves the None placeholder at that file's position instead of shrinking
the list. -/
theorem contents_one_slot_per_file (d : DirState) (rf : String → Bool)
    (names : List String) :
    (analyzeCall d rf names).contents.length = names.length + 1 ∧
    ∀ i nm, names[i]? = some nm → read_file d rf nm = none →
      (analyzeCall d rf names).contents[i + 1]? = some ContentItem.failed := by
  constructor
  · simp [analyzeCall, analyzeContents]
  · intro i nm hn hfail
    simp [analyzeCall, analyzeContents, List.getElem?_map, hn, hfail, itemOfPart]

/-- Witness for C9: a two-file batch whose second file is missing from the
staging directory still yields the placeholder at position 2. -/
theorem contents_one_slot_per_file_witness :
    (analyzeCall (some [("a.jpg", [1])]) (fun _ => false)
        ["a.jpg", "b.png"]).contents[2]?
      = some ContentItem.failed :=
  (contents_one_slot_per_file (some [("a.jpg", [1])]) (fun _ => false)
    ["a.jpg", "b.png"]).2 1 "b.png" (by decide) (by decide)

/-- Claim C10: staging a batch with a duplicated filename writes both
entries to the same path so the later bytes overwrite the earlier ones, and
the analysis request carries the later bytes in both media positions; the
earlier bytes are never sent to the gateway. -/
theorem duplicate_filename_last_write_wins (d : DirState) (n : String) (b1 b2 : Bytes) :
    stage (reset d noDeleteFailure) [(n, b1), (n, b2)] = some [(n, b2)] ∧
    (analyzeCall (stage (reset d noDeleteFailure) [(n, b1), (n, b2)])
        (fun _ => false) [n, n]).contents
      = [ContentItem.text NUTRITIONIST_PROMPT,
         ContentItem.media
           { data := b2, mime_type := detect_mime_type (joinPath CAPTURE_FOLDER n) },
         ContentItem.media
           { data := b2, mime_type := detect_mime_type (joinPath CAPTURE_FOLDER n) }] ∧
    (b1 ≠ b2 →
      ∀ p : Part,
        ContentItem.media p ∈ (analyzeCall (stage (reset d noDeleteFailure) [(n, b1), (n, b2)])
            (fun _ => false) [n, n]).contents →
        p.data ≠ b1) := by
  have hstage : stage (reset d noDeleteFailure) [(n, b1), (n, b2)] = some [(n, b2)] := by
    rw [reset_noFail]
    simp [stage, writeFile]
  have hlook : lookupEntry [(n, b2)] n = some b2 := by
    simp [lookupEntry, List.find?]
  have hcontents : (analyzeCall (stage (reset d noDeleteFailure) [(n, b1), (n, b2)])
      (fun _ => false) [n, n]).contents
      = [ContentItem.text NUTRITIONIST_PROMPT,
         ContentItem.media
           { data := b2, mime_type := detect_mime_type (joinPath CAPTURE_FOLDER n) },
         ContentItem.media
           { data := b2, mime_type := detect_mime_type (joinPath CAPTURE_FOLDER n) }] := by
    rw [hstage]
    simp [analyzeCall, analyzeContents, read_file, hlook, itemOfPart]
  refine ⟨hstage, hcontents, ?_⟩
  intro hne p hp
  rw [hcontents] at hp
  simp at hp
  rw [hp]
  exact fun hc => hne hc.symm

/-- Witness for C10: with bytes [1] then [2] staged under the same name
a.jpg, every media part in the outgoing request holds bytes other than [1];
in particular the part the request carries does. -/
theorem duplicate_filename_last_write_wins_witness :
    ({ data := [2],
       mime_type := detect_mime_type (joinPath CAPTURE_FOLDER "a.jpg") } : Part).data
      ≠ [1] :=
  (duplicate_filename_last_write_wins none "a.jpg" [1] [2]).2.2 (by decide)
    { data := [2], mime_type := detect_mime_type (joinPath CAPTURE_FOLDER "a.jpg") }
    (by decide)

end NutritionistApp
